import Mathlib

/-!
Verification of the Grants Finder Agent service (`app.py`).

The development shallowly embeds the service's pure helpers
(`normalize_hit`, `csv_from_results`, `price_lines`) and its stateful
endpoints (`agent_grants`, `list_saved`, `user_view`, `checkout_complete`)
over an explicit in-memory store.  Python dictionaries are modelled as
association lists, Python truthiness (`x or y`) is modelled explicitly,
failure paths (pydantic validation, `KeyError`, `HTTPException`) are
modelled with `Except`.
-/

set_option autoImplicit false

set_option maxRecDepth 8000

deriving instance DecidableEq for Except

/-- A loosely-typed JSON-ish value as consumed by the normalizer:
`None`/absent, a string, or a list of strings.  (These are the shapes the
`Grant` model's fields can accept or reject.) -/
inductive PyVal where
  | vNull
  | vStr (s : String)
  | vList (l : List String)
  deriving DecidableEq, Repr

/-- Python truthiness on `PyVal`: `None`, `""` and `[]` are falsy. -/
def PyVal.truthy : PyVal → Bool
  | .vNull => false
  | .vStr s => s ≠ ""
  | .vList l => !l.isEmpty

/-- Python `a or b`. -/
def pyOr (a b : PyVal) : PyVal := if a.truthy then a else b

/-- `v` is acceptable where a `str` is expected (pydantic accepts exactly
strings there; a list raises a validation error, `None` is handled by the
`Optional` wrapper separately). -/
def PyVal.isStrLike : PyVal → Bool
  | .vNull => true
  | .vStr _ => true
  | .vList _ => false

/-- `v` is acceptable where a `List[str]` is expected. -/
def PyVal.isListLike : PyVal → Bool
  | .vNull => true
  | .vStr _ => false
  | .vList _ => true

/-- A raw upstream hit: a string-keyed mapping (association list; Python
dicts have unique keys, lookup takes the first match). -/
def RawHit := List (String × PyVal)

/-- `hit.get(k)`: `None` when the key is absent. -/
def rawGet (h : RawHit) (k : String) : PyVal :=
  match h with
  | [] => .vNull
  | (k', v) :: t => if k' = k then v else rawGet t k

/-- The canonical `Grant` record (pydantic model `Grant`). -/
structure Grant where
  opportunityNumber : Option String
  title : String
  agency : Option String
  cfdaNumbers : Option (List String)
  closeDate : Option String
  openDate : Option String
  eligibility : Option (List String)
  link : String
  deriving DecidableEq, Repr

/-- Pydantic validation of a value against `str`: only a string is
accepted. -/
def asStr : PyVal → Option String
  | .vStr s => some s
  | _ => none

/-- Pydantic validation against `Optional[str]`. -/
def asOptStr : PyVal → Option (Option String)
  | .vNull => some none
  | .vStr s => some (some s)
  | .vList _ => none

/-- Pydantic validation against `Optional[List[str]]`. -/
def asOptList : PyVal → Option (Option (List String))
  | .vNull => some none
  | .vList l => some (some l)
  | .vStr _ => none

/-- `normalize_hit` (app.py lines 86–96): maps one raw upstream hit to a
`Grant`, with Python `or`-chains for the field fallbacks and pydantic
validation of the resulting values.  `none` models a raised
`ValidationError`. -/
def normalize_hit (h : RawHit) : Option Grant := do
  let opportunityNumber ← asOptStr (rawGet h "opportunityNumber")
  let title ← asStr (pyOr (rawGet h "title")
      (pyOr (rawGet h "opportunityTitle") (.vStr "(untitled)")))
  let agency ← asOptStr (pyOr (rawGet h "agency") (rawGet h "agencyCode"))
  let cfdaNumbers ← asOptList (pyOr (rawGet h "cfdaList") (rawGet h "assistanceListings"))
  let closeDate ← asOptStr (rawGet h "closeDate")
  let openDate ← asOptStr (rawGet h "postDate")
  let eligibility ← asOptList (pyOr (rawGet h "eligibilityCategories") (rawGet h "applicantTypes"))
  let link ← asStr (pyOr (rawGet h "opportunityLink")
      (pyOr (rawGet h "opportunityIdLink") (.vStr "https://www.grants.gov")))
  pure { opportunityNumber, title, agency, cfdaNumbers, closeDate, openDate, eligibility, link }

example : normalize_hit [] = some
    { opportunityNumber := none, title := "(untitled)", agency := none,
      cfdaNumbers := none, closeDate := none, openDate := none,
      eligibility := none, link := "https://www.grants.gov" } := by decide

example : (normalize_hit [("title", .vList ["x"])]) = none := by decide

example : (normalize_hit [("title", .vStr ""), ("opportunityTitle", .vStr "X")]).map Grant.title
    = some "X" := by decide

/-- Python `x or d` for an `Optional[str]` value `x` (`None` and `""` fall
through to the default). -/
def pyOrS (x : Option String) (d : String) : String :=
  match x with
  | some s => if s = "" then d else s
  | none => d

/-- Python `x or d` for an `Optional[List[str]]` value `x`. -/
def pyOrL (x : Option (List String)) (d : List String) : List String :=
  match x with
  | some l => if l = [] then d else l
  | none => d

/-- The fixed CSV header row written by `csv_from_results`. -/
def csvHeader : List String :=
  ["Title", "Agency", "CFDA(s)", "Close Date", "Eligibility", "Link"]

/-- Python `csv.writer` (excel dialect, QUOTE_MINIMAL): a field is quoted
iff it contains the delimiter, the quote character, or a line-terminator
character. -/
def csvNeedsQuote (f : String) : Bool :=
  f.data.any (fun c => c = ',' || c = '"' || c = '\r' || c = '\n')

/-- Double every quote character of a field, character by character. -/
def csvEscapeChars : List Char → List Char
  | [] => []
  | c :: t => if c = '"' then '"' :: '"' :: csvEscapeChars t else c :: csvEscapeChars t

/-- Double every quote character in a field (csv quote escaping). -/
def csvEscape (f : String) : String := ⟨csvEscapeChars f.data⟩

/-- Serialize one csv field under QUOTE_MINIMAL. -/
def csvField (f : String) : String :=
  if csvNeedsQuote f then "\"" ++ csvEscape f ++ "\"" else f

/-- `writer.writerow`: comma-joined fields terminated by CRLF (the csv
module's default line terminator). -/
def csvRecord (r : List String) : String :=
  String.intercalate "," (r.map csvField) ++ "\r\n"

/-- The data row written for one grant: `[g.title, g.agency or "",
";".join(g.cfdaNumbers or []), g.closeDate or "", ";".join(g.eligibility
or []), g.link]`. -/
def grantRow (g : Grant) : List String :=
  [g.title, pyOrS g.agency "", String.intercalate ";" (pyOrL g.cfdaNumbers []),
    pyOrS g.closeDate "", String.intercalate ";" (pyOrL g.eligibility []), g.link]

/-- `csv_from_results` (app.py lines 104–117): writes the header row, then
one row per grant, into a string buffer. -/
def csv_from_results (results : List Grant) : String :=
  results.foldl (fun buf g => buf ++ csvRecord (grantRow g)) ("" ++ csvRecord csvHeader)

/-- `SearchParams` (pydantic model). -/
structure SearchParams where
  keyword : String := ""
  state : Option String := none
  eligibility : Option String := none
  sort_by : String := "closeDate|asc"
  limit : Nat := 20
  offset : Nat := 0
  deriving DecidableEq, Repr

/-- A `USERS` record: `{"subscription": ..., "created_at": ...}`. -/
structure UserRec where
  subscription : String
  created_at : String
  deriving DecidableEq, Repr

/-- The process-wide in-memory store: the `USERS` dict and the
`SAVED_SEARCHES` dict. -/
structure Store where
  users : List (String × UserRec)
  saved : List (String × List SearchParams)
  deriving DecidableEq, Repr

/-- Python dict lookup `d[k]` as an `Option` (first matching key). -/
def lookupKV {α : Type} (l : List (String × α)) (k : String) : Option α :=
  match l with
  | [] => none
  | (k', v) :: t => if k' = k then some v else lookupKV t k

/-- Python dict assignment `d[k] = v`: replace in place, or append when the
key is new. -/
def setKV {α : Type} (l : List (String × α)) (k : String) (v : α) : List (String × α) :=
  match l with
  | [] => [(k, v)]
  | (k', v') :: t => if k' = k then (k, v) :: t else (k', v') :: setKV t k v

/-- The failure modes the endpoints can raise: a dict `KeyError`, a
pydantic `ValidationError`, or a FastAPI `HTTPException` with a status
code and a detail string. -/
inductive PyError where
  | keyError
  | validationError
  | httpException (status : Nat) (detail : String)
  deriving DecidableEq, Repr

/-- `ensure_user` (app.py lines 98–102): lazily creates the user with tier
`"free"` (together with its empty saved-search list) and returns
`USERS[user_id]`.  `now` stands for `datetime.utcnow().isoformat()`. -/
def ensure_user (now : String) (user_id : String) (s : Store) : Store × UserRec :=
  match lookupKV s.users user_id with
  | some u => (s, u)
  | none =>
    let u : UserRec := { subscription := "free", created_at := now }
    ({ users := setKV s.users user_id u, saved := setKV s.saved user_id [] }, u)

/-- The fixed price catalog `INVENTORY` (cents). -/
def INVENTORY : List (String × Nat) :=
  [("grants_pro_monthly", 1500), ("grants_team_monthly", 4900)]

/-- `INVENTORY[k]` / `k in INVENTORY`. -/
def inventoryGet (k : String) : Option Nat := lookupKV INVENTORY k

/-- `AgentRequest` (pydantic model). -/
structure AgentRequest where
  user_id : String
  params : SearchParams
  save_search : Bool := false
  deriving DecidableEq, Repr

/-- The JSON payload the agent endpoint reads back from its internal call
to `/api/grants/search`: `source` and `total` are read with `.get`
defaults, `results` is the normalized result list. -/
structure SearchPayload where
  source : Option String
  total : Option Nat
  results : List Grant
  deriving DecidableEq, Repr

/-- The upsell payload attached for free-tier users. -/
structure Upsell where
  message : String
  product_id : String
  price_cents : Nat
  deriving DecidableEq, Repr

/-- The response dict built by `agent_grants`; keys that are only
conditionally present are `Option`s (`none` models an absent key). -/
structure AgentResponse where
  tier : String
  summary : String
  results : List Grant
  source : String
  sort_by : String
  csv_filename : Option String
  csv_content : Option String
  saved_searches : Option (List SearchParams)
  upsell : Option Upsell
  deriving DecidableEq, Repr

/-- `agent_grants` (app.py lines 159–196): ensure the user, build the base
response from the search payload, then branch on the tier: pro users get
CSV content (and, on `save_search`, an appended saved search read through
`SAVED_SEARCHES[req.user_id]`, a dict subscript that can raise
`KeyError`); everyone else gets the upsell payload priced from
`INVENTORY`.  `today` stands for `date.today()`, `now` for the creation
timestamp. -/
def agent_grants (today now : String) (req : AgentRequest) (payload : SearchPayload)
    (s : Store) : Except PyError (Store × AgentResponse) :=
  let eu := ensure_user now req.user_id s
  let s₁ := eu.1
  let user := eu.2
  let results := payload.results
  let base : AgentResponse :=
    { tier := user.subscription
      summary := "Found " ++ toString (payload.total.getD results.length) ++
        " opportunities; showing " ++ toString results.length ++ "."
      results := results
      source := payload.source.getD "grants.gov"
      sort_by := req.params.sort_by
      csv_filename := none, csv_content := none, saved_searches := none, upsell := none }
  if user.subscription = "pro" then
    let r₁ := { base with
      csv_filename := some ("grants_" ++ today ++ ".csv")
      csv_content := some (csv_from_results results) }
    if req.save_search then
      match lookupKV s₁.saved req.user_id with
      | none => .error .keyError
      | some l =>
        let l' := l ++ [req.params]
        .ok ({ s₁ with saved := setKV s₁.saved req.user_id l' },
          { r₁ with saved_searches := some l' })
    else
      .ok (s₁, r₁)
  else
    match inventoryGet "grants_pro_monthly" with
    | none => .error .keyError
    | some price =>
      let up : Upsell :=
        { message := "Unlock CSV export, saved searches & alerts with Grants Pro."
          product_id := "grants_pro_monthly"
          price_cents := price }
      .ok (s₁, { base with upsell := some up })

/-- `list_saved` (app.py lines 201–204): ensure the user, then read
`SAVED_SEARCHES[user_id]` (a dict subscript that can raise `KeyError`). -/
def list_saved (now : String) (user_id : String) (s : Store) :
    Except PyError (Store × List SearchParams) :=
  let eu := ensure_user now user_id s
  match lookupKV eu.1.saved user_id with
  | none => .error .keyError
  | some l => .ok (eu.1, l)

/-- `user_view` (app.py lines 209–212): ensure the user and return the
record. -/
def user_view (now : String) (user_id : String) (s : Store) : Store × UserRec :=
  ensure_user now user_id s

/-- `CompleteReq` (pydantic model). -/
structure CompleteReq where
  user_id : Option String := none
  deriving DecidableEq, Repr

/-- The acknowledgment returned by checkout completion. -/
structure CompleteResp where
  id : String
  status : String
  receipt_url : String
  deriving DecidableEq, Repr

/-- Python truthiness of an `Optional[str]` (`None` and `""` are falsy). -/
def pyTruthyOptStr : Option String → Bool
  | none => false
  | some s => s ≠ ""

/-- `checkout_complete` (app.py lines 264–274): when `req.user_id` is
truthy, ensure the user and set `USERS[req.user_id]["subscription"]`
to `"pro"` (the subscript can raise `KeyError` when the key is absent). -/
def checkout_complete (checkout_session_id now : String) (req : CompleteReq) (s : Store) :
    Except PyError (Store × CompleteResp) :=
  let ack : CompleteResp :=
    { id := checkout_session_id, status := "completed"
      receipt_url := "https://yourco.example/receipts/" ++ checkout_session_id }
  if pyTruthyOptStr req.user_id then
    match req.user_id with
    | none => .ok (s, ack)
    | some u =>
      let s₁ := (ensure_user now u s).1
      match lookupKV s₁.users u with
      | none => .error .keyError
      | some urec =>
        .ok ({ s₁ with users := setKV s₁.users u { urec with subscription := "pro" } }, ack)
  else
    .ok (s, ack)

/-- `CheckoutItem` (pydantic model). -/
structure CheckoutItem where
  id : String
  quantity : Nat := 1
  deriving DecidableEq, Repr

/-- One priced line of the checkout session. -/
structure LineItem where
  id : String
  item : CheckoutItem
  base_amount : Nat
  subtotal : Nat
  tax : Nat
  total : Nat
  deriving DecidableEq, Repr

/-- `_price_lines` (app.py lines 217–234): price each item against
`INVENTORY`, raising `HTTPException(400, "Unknown SKU: ...")` at the first
SKU absent from the catalog. -/
def price_lines : List CheckoutItem → Except PyError (List LineItem)
  | [] => .ok []
  | it :: rest =>
    match inventoryGet it.id with
    | none => .error (.httpException 400 ("Unknown SKU: " ++ it.id))
    | some base =>
      let subtotal := base * it.quantity
      let tax := 0
      let total := subtotal + tax
      match price_lines rest with
      | .error e => .error e
      | .ok tail =>
        .ok ({ id := "li_" ++ it.id, item := it, base_amount := base,
               subtotal := subtotal, tax := tax, total := total } :: tail)

/-- `CheckoutCreateReq` (pydantic model). -/
structure CheckoutCreateReq where
  items : List CheckoutItem
  user_id : Option String := none
  deriving DecidableEq, Repr

/-- The priced checkout session returned by `checkout_create`. -/
structure CheckoutSession where
  id : String
  status : String
  line_items : List LineItem
  subtotal : Nat
  tax : Nat
  total : Nat
  user_id : Option String
  deriving DecidableEq, Repr

/-- `checkout_create` (app.py lines 236–254): price the lines, then sum
the aggregate totals; on an unknown SKU the `HTTPException` propagates
and no totals are computed. -/
def checkout_create (req : CheckoutCreateReq) : Except PyError CheckoutSession :=
  match price_lines req.items with
  | .error e => .error e
  | .ok line_items =>
    .ok { id := "cs_123", status := "ready_for_payment", line_items := line_items
          subtotal := (line_items.map LineItem.subtotal).sum
          tax := (line_items.map LineItem.tax).sum
          total := (line_items.map LineItem.total).sum
          user_id := req.user_id }

/-- The upstream HTTP response observed by `search_grants`: status code,
reason phrase, request url, and raw body text. -/
structure UpstreamResponse where
  status : Nat
  reason_phrase : String
  url : String
  text : String
  deriving DecidableEq, Repr

/-- httpx `response.is_success`: status in 2xx. -/
def is_success (status : Nat) : Bool := 200 ≤ status && status ≤ 299

/-- Modelled from the httpx library (an external collaborator of app.py):
the prefix of `HTTPStatusError`'s message chosen from the status class. -/
def http_error_type (status : Nat) : String :=
  if status / 100 = 1 then "Informational response"
  else if status / 100 = 3 then "Redirect response"
  else if status / 100 = 4 then "Client error"
  else if status / 100 = 5 then "Server error"
  else "Invalid status code"

/-- Modelled from the httpx library: the message of the
`HTTPStatusError` raised by `raise_for_status` — it mentions the status
code and the url, and never the response body. -/
def httpStatusErrorMessage (r : UpstreamResponse) : String :=
  http_error_type r.status ++ " '" ++ toString r.status ++ " " ++ r.reason_phrase ++
    "' for url '" ++ r.url ++
    "'\nFor more information check: https://developer.mozilla.org/en-US/docs/Web/HTTP/Status/" ++
    toString r.status

/-- The JSON body returned by the search endpoint. -/
structure SearchResult where
  source : String
  total : Nat
  results : List Grant
  deriving DecidableEq, Repr

/-- `search_grants` (app.py lines 122–154), response handling: on a
non-2xx upstream status, raise `HTTPException(502, "Grants.gov error: "
+ str(e))`; on success, normalize `data.get("oppHits", []) or []`
(`oppHits = none` models an absent or null field) and read
`data.get("totalRecords", len(results))`. -/
def search_grants (r : UpstreamResponse) (oppHits : Option (List RawHit))
    (totalRecords : Option Nat) : Except PyError SearchResult :=
  if is_success r.status then
    match (oppHits.getD []).mapM normalize_hit with
    | none => .error .validationError
    | some results =>
      .ok { source := "grants.gov/search2", total := totalRecords.getD results.length
            results := results }
  else
    .error (.httpException 502 ("Grants.gov error: " ++ httpStatusErrorMessage r))

/-- The key-set invariant of the store: `USERS` and `SAVED_SEARCHES` hold
exactly the same user keys, in the same insertion order. -/
def StoreInv (s : Store) : Prop := s.users.map Prod.fst = s.saved.map Prod.fst

instance (s : Store) : Decidable (StoreInv s) := by unfold StoreInv; infer_instance

/-- The store at process start: both dicts empty. -/
def emptyStore : Store := { users := [], saved := [] }

/-- C6 (amended): every non-2xx upstream response makes the search fail
with an `HTTPException` of status 502 (a distinguishable bad-gateway
condition, never swallowed) whose detail embeds the HTTP client
library's status-error message; that message carries the upstream status
code, and the error is entirely independent of the upstream body — no
body snippet, truncated or otherwise, is included. -/
theorem search_grants_upstream_error (r : UpstreamResponse) (oppHits : Option (List RawHit))
    (totalRecords : Option Nat) (h : is_success r.status = false) :
    search_grants r oppHits totalRecords
      = .error (.httpException 502 ("Grants.gov error: " ++ httpStatusErrorMessage r)) ∧
    (∃ x y, "Grants.gov error: " ++ httpStatusErrorMessage r
      = x ++ toString r.status ++ y) ∧
    (∀ t, search_grants { r with text := t } oppHits totalRecords
      = search_grants r oppHits totalRecords) := by
  refine ⟨by simp [search_grants, h], ?_, ?_⟩
  · refine ⟨"Grants.gov error: " ++ http_error_type r.status ++ " '",
      " " ++ r.reason_phrase ++ "' for url '" ++ r.url ++
        "'\nFor more information check: https://developer.mozilla.org/en-US/docs/Web/HTTP/Status/" ++
        toString r.status, ?_⟩
    simp [httpStatusErrorMessage, String.append_assoc]
  · intro t
    simp [search_grants, httpStatusErrorMessage, http_error_type, is_success]

/-- A concrete 404 upstream response. -/
def notFoundUpstream : UpstreamResponse :=
  { status := 404, reason_phrase := "Not Found",
    url := "https://www.grants.gov/api/common/search2", text := "irrelevant" }

/-- Witness for C6 (amended): a concrete 404 upstream response fails with
the 502 gateway error, whose detail mentions the status code and is
unchanged under any body text. -/
theorem search_grants_upstream_error_witness :
    search_grants notFoundUpstream none none
      = .error (.httpException 502
          ("Grants.gov error: " ++ httpStatusErrorMessage notFoundUpstream)) ∧
    (∃ x y, "Grants.gov error: " ++ httpStatusErrorMessage notFoundUpstream
      = x ++ toString notFoundUpstream.status ++ y) := by
  have hw := search_grants_upstream_error notFoundUpstream none none (by decide)
  exact ⟨hw.1, hw.2.1⟩

/-- The upstream response used to refute the body-snippet part of C6. -/
def cexUpstream : UpstreamResponse :=
  { status := 500, reason_phrase := "Internal Server Error",
    url := "https://www.grants.gov/api/common/search2", text := "ZZZZZ" }

/-- Counterexample to C6 as stated: for a concrete 500 response whose body
is `"ZZZZZ"`, the raised error's detail does not contain the first 300
characters of the body (it contains no `'Z'` at all) — the code never
extracts a body snippet. -/
theorem search_grants_upstream_error_cex :
    search_grants cexUpstream none none
      = .error (.httpException 502 ("Grants.gov error: " ++ httpStatusErrorMessage cexUpstream)) ∧
    cexUpstream.text.data.take 300 = "ZZZZZ".data ∧
    ("Grants.gov error: " ++ httpStatusErrorMessage cexUpstream).data.contains 'Z' = false ∧
    ¬ cexUpstream.text.data.take 300 <:+:
        ("Grants.gov error: " ++ httpStatusErrorMessage cexUpstream).data := by
  refine ⟨by decide, by decide, by decide, fun hinf => ?_⟩
  have hz : 'Z' ∈ cexUpstream.text.data.take 300 := by decide
  have hz' := hinf.subset hz
  have hno : ('Z' ∈ ("Grants.gov error: " ++ httpStatusErrorMessage cexUpstream).data) = False := by
    decide
  rw [hno] at hz'
  exact hz'

/-- The demo cart used as the C7 witness: one known and one unknown SKU. -/
def demoCart : List CheckoutItem :=
  [{ id := "grants_pro_monthly", quantity := 1 }, { id := "bogus_sku", quantity := 2 }]

/-- C7: a cart containing any SKU absent from `INVENTORY` makes pricing
fail with a 400 client error naming an unknown SKU of the cart, and
checkout creation propagates that same error: no line items and no
aggregate totals are returned. -/
theorem price_lines_unknown_sku (items : List CheckoutItem)
    (h : ∃ it ∈ items, inventoryGet it.id = none) :
    ∃ sku, inventoryGet sku = none ∧ sku ∈ items.map CheckoutItem.id ∧
      price_lines items = .error (.httpException 400 ("Unknown SKU: " ++ sku)) ∧
      ∀ uid, checkout_create { items := items, user_id := uid }
        = .error (.httpException 400 ("Unknown SKU: " ++ sku)) := by
  induction items with
  | nil => simp at h
  | cons it rest ih =>
    cases hinv : inventoryGet it.id with
    | none =>
      have hpl : price_lines (it :: rest)
          = .error (.httpException 400 ("Unknown SKU: " ++ it.id)) := by
        simp [price_lines, hinv]
      refine ⟨it.id, hinv, by simp, hpl, fun uid => ?_⟩
      simp [checkout_create, hpl]
    | some base =>
      have h' : ∃ x ∈ rest, inventoryGet x.id = none := by
        rcases h with ⟨x, hx, hxe⟩
        rcases List.mem_cons.1 hx with rfl | hxr
        · rw [hinv] at hxe
          exact absurd hxe (by simp)
        · exact ⟨x, hxr, hxe⟩
      obtain ⟨sku, hsku, hmem, hpl, _⟩ := ih h'
      have hpl' : price_lines (it :: rest)
          = .error (.httpException 400 ("Unknown SKU: " ++ sku)) := by
        simp [price_lines, hinv, hpl]
      refine ⟨sku, hsku, List.mem_cons_of_mem _ hmem, hpl', fun uid => ?_⟩
      simp [checkout_create, hpl']

/-- Witness for C7: pricing the demo cart fails with the 400 unknown-SKU
error, and so does checkout creation. -/
theorem price_lines_unknown_sku_witness :
    ∃ sku, price_lines demoCart = .error (.httpException 400 ("Unknown SKU: " ++ sku)) ∧
      checkout_create { items := demoCart, user_id := some "demo-user" }
        = .error (.httpException 400 ("Unknown SKU: " ++ sku)) := by
  obtain ⟨sku, _, _, hpl, hcc⟩ := price_lines_unknown_sku demoCart
    ⟨{ id := "bogus_sku", quantity := 2 }, by decide, by decide⟩
  exact ⟨sku, hpl, hcc (some "demo-user")⟩

theorem lookupKV_setKV_self {α : Type} (l : List (String × α)) (k : String) (v : α) :
    lookupKV (setKV l k v) k = some v := by
  induction l with
  | nil => simp [setKV, lookupKV]
  | cons p t ih =>
    obtain ⟨k', v'⟩ := p
    by_cases h : k' = k
    · simp [setKV, lookupKV, h]
    · simp [setKV, lookupKV, h, ih]

theorem lookupKV_setKV_ne {α : Type} (l : List (String × α)) (k k' : String) (v : α)
    (h : k' ≠ k) : lookupKV (setKV l k v) k' = lookupKV l k' := by
  induction l with
  | nil => simp [setKV, lookupKV, Ne.symm h]
  | cons p t ih =>
    obtain ⟨k₀, v₀⟩ := p
    simp only [setKV]
    by_cases h₀ : k₀ = k
    · subst h₀
      simp [lookupKV, Ne.symm h]
    · simp [lookupKV, ih, h₀]

theorem lookupKV_isSome_iff {α : Type} (l : List (String × α)) (k : String) :
    (lookupKV l k).isSome ↔ k ∈ l.map Prod.fst := by
  induction l with
  | nil => simp [lookupKV]
  | cons p t ih =>
    obtain ⟨k₀, v₀⟩ := p
    by_cases h : k₀ = k
    · simp [lookupKV, h]
    · simp [lookupKV, h, ih, Ne.symm h]

theorem lookupKV_eq_none_iff {α : Type} (l : List (String × α)) (k : String) :
    lookupKV l k = none ↔ k ∉ l.map Prod.fst := by
  rw [← lookupKV_isSome_iff, Option.not_isSome_iff_eq_none]

theorem map_fst_setKV_mem {α : Type} (l : List (String × α)) (k : String) (v : α)
    (h : k ∈ l.map Prod.fst) : (setKV l k v).map Prod.fst = l.map Prod.fst := by
  induction l with
  | nil => simp at h
  | cons p t ih =>
    obtain ⟨k₀, v₀⟩ := p
    by_cases h₀ : k₀ = k
    · simp [setKV, h₀]
    · simp only [List.map_cons, List.mem_cons] at h
      rcases h with h | h
      · exact absurd h.symm h₀
      · simp [setKV, h₀, ih h]

theorem map_fst_setKV_not_mem {α : Type} (l : List (String × α)) (k : String) (v : α)
    (h : k ∉ l.map Prod.fst) : (setKV l k v).map Prod.fst = l.map Prod.fst ++ [k] := by
  induction l with
  | nil => simp [setKV]
  | cons p t ih =>
    obtain ⟨k₀, v₀⟩ := p
    simp only [List.map_cons, List.mem_cons] at h
    push_neg at h
    simp [setKV, Ne.symm h.1, ih h.2]

theorem ensure_user_inv (now u : String) (s : Store) (h : StoreInv s) :
    StoreInv (ensure_user now u s).1 := by
  unfold ensure_user
  cases hl : lookupKV s.users u with
  | some r => exact h
  | none =>
    have hu : u ∉ s.users.map Prod.fst := (lookupKV_eq_none_iff _ _).1 hl
    have hs : u ∉ s.saved.map Prod.fst := by rw [← h]; exact hu
    simp only [StoreInv]
    rw [map_fst_setKV_not_mem _ _ _ hu, map_fst_setKV_not_mem _ _ _ hs, h]

theorem ensure_user_users_lookup (now u : String) (s : Store) :
    lookupKV (ensure_user now u s).1.users u = some (ensure_user now u s).2 := by
  unfold ensure_user
  cases hl : lookupKV s.users u with
  | some r => exact hl
  | none => simp [lookupKV_setKV_self]

theorem ensure_user_saved_isSome (now u : String) (s : Store) (h : StoreInv s) :
    (lookupKV (ensure_user now u s).1.saved u).isSome := by
  have hinv := ensure_user_inv now u s h
  rw [lookupKV_isSome_iff, ← hinv]
  rw [← lookupKV_isSome_iff, ensure_user_users_lookup]
  rfl

/-- The upstream keys that `normalize_hit` feeds into `str`-typed `Grant`
fields. -/
def strKeys : List String :=
  ["opportunityNumber", "title", "opportunityTitle", "agency", "agencyCode",
    "closeDate", "postDate", "opportunityLink", "opportunityIdLink"]

/-- The upstream keys that `normalize_hit` feeds into `List[str]`-typed
`Grant` fields. -/
def listKeys : List String :=
  ["cfdaList", "assistanceListings", "eligibilityCategories", "applicantTypes"]

/-- A raw hit is well-typed when every field `normalize_hit` consumes has
the shape its target position accepts (absent/null always qualifies). -/
def WellTypedHit (h : RawHit) : Prop :=
  (∀ k ∈ strKeys, (rawGet h k).isStrLike = true) ∧
    (∀ k ∈ listKeys, (rawGet h k).isListLike = true)

instance (h : RawHit) : Decidable (WellTypedHit h) := by
  unfold WellTypedHit
  exact instDecidableAnd

theorem pyOr_eq (a b : PyVal) :
    (a.truthy = true ∧ pyOr a b = a) ∨ (a.truthy = false ∧ pyOr a b = b) := by
  unfold pyOr
  by_cases h : a.truthy = true
  · exact Or.inl ⟨h, by simp [h]⟩
  · exact Or.inr ⟨by simpa using h, by simp [h]⟩

theorem truthy_strLike (v : PyVal) (h₁ : v.isStrLike = true) (h₂ : v.truthy = true) :
    ∃ s, v = .vStr s := by
  cases v <;> simp_all [PyVal.isStrLike, PyVal.truthy]

theorem pyOr_chain_vStr (a b : PyVal) (d : String)
    (ha : a.isStrLike = true) (hb : b.isStrLike = true) :
    ∃ s, pyOr a (pyOr b (.vStr d)) = .vStr s := by
  rcases pyOr_eq a (pyOr b (.vStr d)) with ⟨ht, he⟩ | ⟨_, he⟩
  · obtain ⟨s, hs⟩ := truthy_strLike a ha ht
    exact ⟨s, he.trans hs⟩
  · rw [he]
    rcases pyOr_eq b (.vStr d) with ⟨ht, he₂⟩ | ⟨_, he₂⟩
    · obtain ⟨s, hs⟩ := truthy_strLike b hb ht
      exact ⟨s, he₂.trans hs⟩
    · exact ⟨d, he₂⟩

theorem pyOr_strLike (a b : PyVal) (ha : a.isStrLike = true) (hb : b.isStrLike = true) :
    (pyOr a b).isStrLike = true := by
  rcases pyOr_eq a b with ⟨_, he⟩ | ⟨_, he⟩ <;> rw [he] <;> assumption

theorem pyOr_listLike (a b : PyVal) (ha : a.isListLike = true) (hb : b.isListLike = true) :
    (pyOr a b).isListLike = true := by
  rcases pyOr_eq a b with ⟨_, he⟩ | ⟨_, he⟩ <;> rw [he] <;> assumption

theorem asOptStr_of_strLike (v : PyVal) (h : v.isStrLike = true) :
    ∃ o, asOptStr v = some o := by
  cases v <;> simp_all [PyVal.isStrLike, asOptStr]

theorem asOptList_of_listLike (v : PyVal) (h : v.isListLike = true) :
    ∃ o, asOptList v = some o := by
  cases v <;> simp_all [PyVal.isListLike, asOptList]

/-- C2 (amended): for every raw hit whose present fields are well-typed —
in particular every hit with missing, null, empty-string or empty-list
fields — `normalize_hit` returns a `Grant` and never fails. -/
theorem normalize_hit_total (h : RawHit) (hwt : WellTypedHit h) :
    (normalize_hit h).isSome = true := by
  obtain ⟨hs, hl⟩ := hwt
  obtain ⟨o₁, e₁⟩ := asOptStr_of_strLike _ (hs "opportunityNumber" (by decide))
  obtain ⟨t, e₂⟩ := pyOr_chain_vStr (rawGet h "title") (rawGet h "opportunityTitle")
    "(untitled)" (hs "title" (by decide)) (hs "opportunityTitle" (by decide))
  obtain ⟨o₃, e₃⟩ := asOptStr_of_strLike _
    (pyOr_strLike _ _ (hs "agency" (by decide)) (hs "agencyCode" (by decide)))
  obtain ⟨o₄, e₄⟩ := asOptList_of_listLike _
    (pyOr_listLike _ _ (hl "cfdaList" (by decide)) (hl "assistanceListings" (by decide)))
  obtain ⟨o₅, e₅⟩ := asOptStr_of_strLike _ (hs "closeDate" (by decide))
  obtain ⟨o₆, e₆⟩ := asOptStr_of_strLike _ (hs "postDate" (by decide))
  obtain ⟨o₇, e₇⟩ := asOptList_of_listLike _
    (pyOr_listLike _ _ (hl "eligibilityCategories" (by decide)) (hl "applicantTypes" (by decide)))
  obtain ⟨li, e₈⟩ := pyOr_chain_vStr (rawGet h "opportunityLink") (rawGet h "opportunityIdLink")
    "https://www.grants.gov" (hs "opportunityLink" (by decide)) (hs "opportunityIdLink" (by decide))
  unfold normalize_hit
  rw [e₂, e₈]
  simp [e₁, e₃, e₄, e₅, e₆, e₇, asStr]

/-- Witness for C2 (amended): a hit with an empty title, a null agency and
an empty eligibility list is well-typed and normalizes successfully. -/
theorem normalize_hit_total_witness :
    WellTypedHit [("title", .vStr ""), ("agency", .vNull), ("eligibilityCategories", .vList [])] ∧
      (normalize_hit [("title", .vStr ""), ("agency", .vNull),
        ("eligibilityCategories", .vList [])]).isSome = true :=
  ⟨by decide, normalize_hit_total _ (by decide)⟩

/-- Counterexample to C2 as stated: a malformed hit whose `title` holds a
list makes `normalize_hit` fail (pydantic rejects a list where `str` is
expected), so the normalizer is not total over arbitrary mappings. -/
theorem normalize_hit_not_total_cex :
    normalize_hit [("title", .vList ["x"])] = none := by decide

/-- C3: a raw hit carrying none of the upstream fields the normalizer
reads produces the fully-defaulted `Grant`: title `"(untitled)"`, link
`"https://www.grants.gov"`, every optional field absent. -/
theorem normalize_hit_defaults (h : RawHit)
    (habs : ∀ k ∈ strKeys ++ listKeys, rawGet h k = .vNull) :
    normalize_hit h = some
      { opportunityNumber := none, title := "(untitled)", agency := none,
        cfdaNumbers := none, closeDate := none, openDate := none,
        eligibility := none, link := "https://www.grants.gov" } := by
  have h₁ := habs "opportunityNumber" (by decide)
  have h₂ := habs "title" (by decide)
  have h₃ := habs "opportunityTitle" (by decide)
  have h₄ := habs "agency" (by decide)
  have h₅ := habs "agencyCode" (by decide)
  have h₆ := habs "closeDate" (by decide)
  have h₇ := habs "postDate" (by decide)
  have h₈ := habs "opportunityLink" (by decide)
  have h₉ := habs "opportunityIdLink" (by decide)
  have h₁₀ := habs "cfdaList" (by decide)
  have h₁₁ := habs "assistanceListings" (by decide)
  have h₁₂ := habs "eligibilityCategories" (by decide)
  have h₁₃ := habs "applicantTypes" (by decide)
  unfold normalize_hit
  rw [h₁, h₂, h₃, h₄, h₅, h₆, h₇, h₈, h₉, h₁₀, h₁₁, h₁₂, h₁₃]
  rfl

/-- Witness for C3: the empty mapping has every field absent and
normalizes to the defaulted `Grant`. -/
theorem normalize_hit_defaults_witness :
    normalize_hit [] = some
      { opportunityNumber := none, title := "(untitled)", agency := none,
        cfdaNumbers := none, closeDate := none, openDate := none,
        eligibility := none, link := "https://www.grants.gov" } :=
  normalize_hit_defaults [] (by decide)

/-- C4 (amended): whenever the primary upstream key of a pair holds a
truthy value of the expected shape (a non-empty string, or a non-empty
list for the list-valued pairs), the normalized `Grant` carries the
primary key's value, whatever the fallback key holds. -/
theorem normalize_hit_primary_wins (h : RawHit) (g : Grant)
    (hg : normalize_hit h = some g) :
    (∀ t, rawGet h "title" = .vStr t → t ≠ "" → g.title = t) ∧
    (∀ a, rawGet h "agency" = .vStr a → a ≠ "" → g.agency = some a) ∧
    (∀ c, rawGet h "cfdaList" = .vList c → c ≠ [] → g.cfdaNumbers = some c) ∧
    (∀ e, rawGet h "eligibilityCategories" = .vList e → e ≠ [] → g.eligibility = some e) ∧
    (∀ li, rawGet h "opportunityLink" = .vStr li → li ≠ "" → g.link = li) := by
  simp only [normalize_hit, bind, Option.bind_eq_some, Option.pure_def,
    Option.some.injEq] at hg
  obtain ⟨o₁, e₁, t, e₂, o₃, e₃, o₄, e₄, o₅, e₅, o₆, e₆, o₇, e₇, li, e₈, hgeq⟩ := hg
  subst hgeq
  refine ⟨?_, ?_, ?_, ?_, ?_⟩
  · intro t' ht htne
    rw [ht] at e₂
    have htr : PyVal.truthy (.vStr t') = true := by simp [PyVal.truthy, htne]
    rw [show pyOr (.vStr t') (pyOr (rawGet h "opportunityTitle") (.vStr "(untitled)"))
        = .vStr t' from if_pos htr] at e₂
    simp only [asStr, Option.some.injEq] at e₂
    exact e₂.symm
  · intro a ha hane
    rw [ha] at e₃
    have hatr : PyVal.truthy (.vStr a) = true := by simp [PyVal.truthy, hane]
    rw [show pyOr (.vStr a) (rawGet h "agencyCode") = .vStr a from if_pos hatr] at e₃
    simp only [asOptStr, Option.some.injEq] at e₃
    exact e₃.symm
  · intro c hc hcne
    rw [hc] at e₄
    have hctr : PyVal.truthy (.vList c) = true := by
      simp [PyVal.truthy, List.isEmpty_iff, hcne]
    rw [show pyOr (.vList c) (rawGet h "assistanceListings") = .vList c from if_pos hctr] at e₄
    simp only [asOptList, Option.some.injEq] at e₄
    exact e₄.symm
  · intro e he hene
    rw [he] at e₇
    have hetr : PyVal.truthy (.vList e) = true := by
      simp [PyVal.truthy, List.isEmpty_iff, hene]
    rw [show pyOr (.vList e) (rawGet h "applicantTypes") = .vList e from if_pos hetr] at e₇
    simp only [asOptList, Option.some.injEq] at e₇
    exact e₇.symm
  · intro l hl hlne
    rw [hl] at e₈
    have hltr : PyVal.truthy (.vStr l) = true := by simp [PyVal.truthy, hlne]
    rw [show pyOr (.vStr l) (pyOr (rawGet h "opportunityIdLink") (.vStr "https://www.grants.gov"))
        = .vStr l from if_pos hltr] at e₈
    simp only [asStr, Option.some.injEq] at e₈
    exact e₈.symm

/-- Counterexample to C4 as stated: a hit providing both `title` (as the
empty string) and `opportunityTitle` normalizes to the fallback's value
`"X"`, not the primary's value `""`. -/
theorem normalize_hit_primary_wins_cex :
    rawGet [("title", .vStr ""), ("opportunityTitle", .vStr "X")] "title" = .vStr "" ∧
    rawGet [("title", .vStr ""), ("opportunityTitle", .vStr "X")] "opportunityTitle"
      = .vStr "X" ∧
    (normalize_hit [("title", .vStr ""), ("opportunityTitle", .vStr "X")]).map Grant.title
      = some "X" ∧
    "X" ≠ "" := by decide

/-- A hit providing both keys of all five primary/fallback pairs, with
truthy primary values. -/
def primaryHit : RawHit :=
  [("title", .vStr "T"), ("opportunityTitle", .vStr "T2"),
   ("agency", .vStr "A"), ("agencyCode", .vStr "A2"),
   ("cfdaList", .vList ["10.001"]), ("assistanceListings", .vList ["x"]),
   ("eligibilityCategories", .vList ["E"]), ("applicantTypes", .vList ["y"]),
   ("opportunityLink", .vStr "L"), ("opportunityIdLink", .vStr "L2")]

/-- The declarative form of a csv document: the serialized records, in
order. -/
def csvDoc (rows : List (List String)) : String :=
  match rows with
  | [] => ""
  | r :: t => csvRecord r ++ csvDoc t

theorem foldl_csvDoc (rows : List Grant) (init : String) :
    rows.foldl (fun buf g => buf ++ csvRecord (grantRow g)) init
      = init ++ csvDoc (rows.map grantRow) := by
  induction rows generalizing init with
  | nil => simp [csvDoc, String.append_empty]
  | cons g t ih => simp [csvDoc, ih, String.append_assoc]

/-- C5: the CSV document is the serialization of exactly `N + 1` records —
the fixed header followed by one row per grant in order — where the
list-valued fields are `";"`-joined and absent optional fields render as
the empty string. -/
theorem csv_from_results_shape (results : List Grant) :
    csv_from_results results = csvDoc (csvHeader :: results.map grantRow) ∧
    (csvHeader :: results.map grantRow).length = results.length + 1 ∧
    csvHeader = ["Title", "Agency", "CFDA(s)", "Close Date", "Eligibility", "Link"] ∧
    (∀ g : Grant, (grantRow g).length = 6 ∧ (grantRow g).get? 0 = some g.title ∧
      (grantRow g).get? 5 = some g.link) ∧
    (∀ g : Grant, g.agency = none → (grantRow g).get? 1 = some "") ∧
    (∀ g : Grant, g.cfdaNumbers = none → (grantRow g).get? 2 = some "") ∧
    (∀ (g : Grant) (l : List String), g.cfdaNumbers = some l →
      (grantRow g).get? 2 = some (String.intercalate ";" l)) ∧
    (∀ g : Grant, g.closeDate = none → (grantRow g).get? 3 = some "") ∧
    (∀ g : Grant, g.eligibility = none → (grantRow g).get? 4 = some "") ∧
    (∀ (g : Grant) (l : List String), g.eligibility = some l →
      (grantRow g).get? 4 = some (String.intercalate ";" l)) := by
  refine ⟨?_, by simp, rfl, ?_, ?_, ?_, ?_, ?_, ?_, ?_⟩
  · unfold csv_from_results
    rw [foldl_csvDoc]
    simp [csvDoc, String.empty_append, String.append_assoc]
  · intro g
    exact ⟨rfl, rfl, rfl⟩
  · intro g hg
    simp [grantRow, hg, pyOrS]
  · intro g hg
    simp [grantRow, hg, pyOrL, String.intercalate]
  · intro g l hg
    rcases eq_or_ne l [] with rfl | hne
    · simp [grantRow, hg, pyOrL, String.intercalate]
    · simp [grantRow, hg, pyOrL, hne]
  · intro g hg
    simp [grantRow, hg, pyOrS]
  · intro g hg
    simp [grantRow, hg, pyOrL, String.intercalate]
  · intro g l hg
    rcases eq_or_ne l [] with rfl | hne
    · simp [grantRow, hg, pyOrL, String.intercalate]
    · simp [grantRow, hg, pyOrL, hne]

/-- Witness for C5: a two-grant list yields the header plus two rows, with
`";"`-joined lists and empty strings for the absent fields. -/
theorem csv_from_results_shape_witness :
    csv_from_results
        [{ opportunityNumber := none, title := "T", agency := some "A",
           cfdaNumbers := some ["1", "2"], closeDate := none, openDate := none,
           eligibility := none, link := "L" },
         { opportunityNumber := none, title := "(untitled)", agency := none,
           cfdaNumbers := none, closeDate := some "2030-01-01", openDate := none,
           eligibility := some ["e1", "e2"], link := "https://www.grants.gov" }]
      = "Title,Agency,CFDA(s),Close Date,Eligibility,Link\r\n" ++
        "T,A,1;2,,,L\r\n" ++
        "(untitled),,,2030-01-01,e1;e2,https://www.grants.gov\r\n" ∧
    ([{ opportunityNumber := none, title := "T", agency := some "A",
        cfdaNumbers := some ["1", "2"], closeDate := none, openDate := none,
        eligibility := none, link := "L" },
      { opportunityNumber := none, title := "(untitled)", agency := none,
        cfdaNumbers := none, closeDate := some "2030-01-01", openDate := none,
        eligibility := some ["e1", "e2"], link := "https://www.grants.gov" }] :
      List Grant).length + 1 = 3 := by
  have hs := csv_from_results_shape
    [{ opportunityNumber := none, title := "T", agency := some "A",
       cfdaNumbers := some ["1", "2"], closeDate := none, openDate := none,
       eligibility := none, link := "L" },
     { opportunityNumber := none, title := "(untitled)", agency := none,
       cfdaNumbers := none, closeDate := some "2030-01-01", openDate := none,
       eligibility := some ["e1", "e2"], link := "https://www.grants.gov" }]
  refine ⟨hs.1.trans (by decide), by decide⟩

/-- Witness for C4 (amended): on `primaryHit` every primary value wins. -/
theorem normalize_hit_primary_wins_witness :
    ∃ g, normalize_hit primaryHit = some g ∧ g.title = "T" ∧ g.agency = some "A" ∧
      g.cfdaNumbers = some ["10.001"] ∧ g.eligibility = some ["E"] ∧ g.link = "L" := by
  have hg : normalize_hit primaryHit = some
      { opportunityNumber := none, title := "T", agency := some "A",
        cfdaNumbers := some ["10.001"], closeDate := none, openDate := none,
        eligibility := some ["E"], link := "L" } := by decide
  have hw := normalize_hit_primary_wins primaryHit _ hg
  exact ⟨_, hg, hw.1 "T" (by decide) (by decide), hw.2.1 "A" (by decide) (by decide),
    hw.2.2.1 ["10.001"] (by decide) (by decide), hw.2.2.2.1 ["E"] (by decide) (by decide),
    hw.2.2.2.2 "L" (by decide) (by decide)⟩


theorem ensure_user_of_lookup (now u : String) (s : Store) (r : UserRec)
    (h : lookupKV s.users u = some r) : ensure_user now u s = (s, r) := by
  simp [ensure_user, h]

theorem agent_grants_run_free (today now : String) (req : AgentRequest) (p : SearchPayload)
    (s : Store) (h : (ensure_user now req.user_id s).2.subscription ≠ "pro") :
    agent_grants today now req p s = .ok ((ensure_user now req.user_id s).1,
      { tier := (ensure_user now req.user_id s).2.subscription
        summary := "Found " ++ toString (p.total.getD p.results.length) ++
          " opportunities; showing " ++ toString p.results.length ++ "."
        results := p.results
        source := p.source.getD "grants.gov"
        sort_by := req.params.sort_by
        csv_filename := none
        csv_content := none
        saved_searches := none
        upsell := some
          { message := "Unlock CSV export, saved searches & alerts with Grants Pro."
            product_id := "grants_pro_monthly"
            price_cents := 1500 } }) := by
  have hinv : inventoryGet "grants_pro_monthly" = some 1500 := rfl
  simp [agent_grants, h, hinv]

theorem agent_grants_run_pro_nosave (today now : String) (req : AgentRequest)
    (p : SearchPayload) (s : Store)
    (hpro : (ensure_user now req.user_id s).2.subscription = "pro")
    (hns : req.save_search = false) :
    agent_grants today now req p s = .ok ((ensure_user now req.user_id s).1,
      { tier := "pro"
        summary := "Found " ++ toString (p.total.getD p.results.length) ++
          " opportunities; showing " ++ toString p.results.length ++ "."
        results := p.results
        source := p.source.getD "grants.gov"
        sort_by := req.params.sort_by
        csv_filename := some ("grants_" ++ today ++ ".csv")
        csv_content := some (csv_from_results p.results)
        saved_searches := none
        upsell := none }) := by
  simp [agent_grants, hpro, hns]

theorem agent_grants_run_pro_save (today now : String) (req : AgentRequest)
    (p : SearchPayload) (s : Store) (l : List SearchParams)
    (hpro : (ensure_user now req.user_id s).2.subscription = "pro")
    (hsv : req.save_search = true)
    (hl : lookupKV (ensure_user now req.user_id s).1.saved req.user_id = some l) :
    agent_grants today now req p s = .ok
      ({ (ensure_user now req.user_id s).1 with
          saved := setKV (ensure_user now req.user_id s).1.saved req.user_id
            (l ++ [req.params]) },
       { tier := "pro"
         summary := "Found " ++ toString (p.total.getD p.results.length) ++
           " opportunities; showing " ++ toString p.results.length ++ "."
         results := p.results
         source := p.source.getD "grants.gov"
         sort_by := req.params.sort_by
         csv_filename := some ("grants_" ++ today ++ ".csv")
         csv_content := some (csv_from_results p.results)
         saved_searches := some (l ++ [req.params])
         upsell := none }) := by
  simp [agent_grants, hpro, hsv, hl]

theorem agent_grants_run_pro_save_keyerr (today now : String) (req : AgentRequest)
    (p : SearchPayload) (s : Store)
    (hpro : (ensure_user now req.user_id s).2.subscription = "pro")
    (hsv : req.save_search = true)
    (hl : lookupKV (ensure_user now req.user_id s).1.saved req.user_id = none) :
    agent_grants today now req p s = .error .keyError := by
  simp [agent_grants, hpro, hsv, hl]
/-- C1: the tiered response never gives a free user CSV content or a
saved-search list — it carries the upsell payload naming
`grants_pro_monthly` and its 1500-cent price instead — while a pro user's
response always carries the CSV produced by `csv_from_results` from
exactly the normalized results (and no upsell). -/
theorem agent_tier_gating (today now : String) (req : AgentRequest) (p : SearchPayload)
    (s : Store) :
    ((ensure_user now req.user_id s).2.subscription = "free" →
      ∃ s' resp, agent_grants today now req p s = .ok (s', resp) ∧
        resp.csv_content = none ∧ resp.csv_filename = none ∧
        resp.saved_searches = none ∧ resp.tier = "free" ∧
        resp.upsell = some
          { message := "Unlock CSV export, saved searches & alerts with Grants Pro."
            product_id := "grants_pro_monthly"
            price_cents := 1500 }) ∧
    (∀ s' resp, (ensure_user now req.user_id s).2.subscription = "pro" →
      agent_grants today now req p s = .ok (s', resp) →
      resp.tier = "pro" ∧ resp.csv_content = some (csv_from_results p.results) ∧
        resp.upsell = none) ∧
    ((ensure_user now req.user_id s).2.subscription = "pro" → StoreInv s →
      ∃ s' resp, agent_grants today now req p s = .ok (s', resp) ∧
        resp.csv_content = some (csv_from_results p.results)) := by
  refine ⟨fun hfree => ?_, fun s' resp hpro hok => ?_, fun hpro hinv => ?_⟩
  · have hne : (ensure_user now req.user_id s).2.subscription ≠ "pro" := by
      rw [hfree]; decide
    exact ⟨_, _, agent_grants_run_free today now req p s hne,
      rfl, rfl, rfl, hfree, rfl⟩
  · cases hsv : req.save_search with
    | false =>
      rw [agent_grants_run_pro_nosave today now req p s hpro hsv] at hok
      simp only [Except.ok.injEq, Prod.mk.injEq] at hok
      rw [← hok.2]
      exact ⟨rfl, rfl, rfl⟩
    | true =>
      cases hl : lookupKV (ensure_user now req.user_id s).1.saved req.user_id with
      | none =>
        rw [agent_grants_run_pro_save_keyerr today now req p s hpro hsv hl] at hok
        exact absurd hok (by simp)
      | some l =>
        rw [agent_grants_run_pro_save today now req p s l hpro hsv hl] at hok
        simp only [Except.ok.injEq, Prod.mk.injEq] at hok
        rw [← hok.2]
        exact ⟨rfl, rfl, rfl⟩
  · cases hsv : req.save_search with
    | false =>
      exact ⟨_, _, agent_grants_run_pro_nosave today now req p s hpro hsv, rfl⟩
    | true =>
      obtain ⟨l, hl⟩ := Option.isSome_iff_exists.1
        (ensure_user_saved_isSome now req.user_id s hinv)
      exact ⟨_, _, agent_grants_run_pro_save today now req p s l hpro hsv hl, rfl⟩

/-- A search payload with one normalized grant, used by the witnesses. -/
def demoPayload : SearchPayload :=
  { source := some "grants.gov/search2", total := some 1,
    results := [{ opportunityNumber := some "N-1", title := "T", agency := some "A",
                  cfdaNumbers := some ["1"], closeDate := none, openDate := none,
                  eligibility := none, link := "L" }] }

/-- A store holding one pro-tier user `"u"`, used by the witnesses. -/
def proStore : Store :=
  { users := [("u", { subscription := "pro", created_at := "t0" })],
    saved := [("u", [])] }

/-- Witness for C1: at the empty store the user `"u"` is free and gets the
upsell and no CSV; at `proStore` the same user gets the CSV of the
payload's results. -/
theorem agent_tier_gating_witness :
    (∃ s' resp, agent_grants "2025-10-12" "t1"
        { user_id := "u", params := {}, save_search := false } demoPayload emptyStore
        = .ok (s', resp) ∧ resp.csv_content = none ∧ resp.csv_filename = none ∧
        resp.saved_searches = none ∧ resp.tier = "free" ∧
        resp.upsell = some
          { message := "Unlock CSV export, saved searches & alerts with Grants Pro."
            product_id := "grants_pro_monthly"
            price_cents := 1500 }) ∧
    (∃ s' resp, agent_grants "2025-10-12" "t1"
        { user_id := "u", params := {}, save_search := false } demoPayload proStore
        = .ok (s', resp) ∧ resp.csv_content = some (csv_from_results demoPayload.results)) := by
  have h₁ := (agent_tier_gating "2025-10-12" "t1"
    { user_id := "u", params := {}, save_search := false } demoPayload emptyStore).1
    (by decide)
  have h₂ := (agent_tier_gating "2025-10-12" "t1"
    { user_id := "u", params := {}, save_search := false } demoPayload proStore).2.2
    (by decide) (by decide)
  exact ⟨h₁, h₂⟩
/-- C9: for a pro user, each `save_search = true` request appends the
request's params to the user's saved-search list — never replacing it, the
earlier entries surviving as a prefix — and after two such requests the
list has grown by exactly the two new entries in request order (length 2
when it started empty). -/
theorem saved_search_accumulation (today₁ today₂ now₁ now₂ : String) (u : String)
    (params₁ params₂ : SearchParams) (p₁ p₂ : SearchPayload) (s : Store)
    (urec : UserRec) (l : List SearchParams)
    (hlook : lookupKV s.users u = some urec) (hpro : urec.subscription = "pro")
    (hsaved : lookupKV s.saved u = some l) :
    ∃ s₁ resp₁ s₂ resp₂,
      agent_grants today₁ now₁ { user_id := u, params := params₁, save_search := true } p₁ s
        = .ok (s₁, resp₁) ∧
      lookupKV s₁.saved u = some (l ++ [params₁]) ∧
      resp₁.saved_searches = some (l ++ [params₁]) ∧
      agent_grants today₂ now₂ { user_id := u, params := params₂, save_search := true } p₂ s₁
        = .ok (s₂, resp₂) ∧
      lookupKV s₂.saved u = some (l ++ [params₁] ++ [params₂]) ∧
      resp₂.saved_searches = some (l ++ [params₁] ++ [params₂]) ∧
      (l ++ [params₁] ++ [params₂]).length = l.length + 2 := by
  have hrun₁ : agent_grants today₁ now₁ { user_id := u, params := params₁, save_search := true }
      p₁ s = .ok
      ({ users := s.users, saved := setKV s.saved u (l ++ [params₁]) },
       { tier := "pro"
         summary := "Found " ++ toString (p₁.total.getD p₁.results.length) ++
           " opportunities; showing " ++ toString p₁.results.length ++ "."
         results := p₁.results
         source := p₁.source.getD "grants.gov"
         sort_by := params₁.sort_by
         csv_filename := some ("grants_" ++ today₁ ++ ".csv")
         csv_content := some (csv_from_results p₁.results)
         saved_searches := some (l ++ [params₁])
         upsell := none }) := by
    simp [agent_grants, ensure_user, hlook, hpro, hsaved]
  have hrun₂ : agent_grants today₂ now₂ { user_id := u, params := params₂, save_search := true }
      p₂ { users := s.users, saved := setKV s.saved u (l ++ [params₁]) } = .ok
      ({ users := s.users,
         saved := setKV (setKV s.saved u (l ++ [params₁])) u (l ++ [params₁] ++ [params₂]) },
       { tier := "pro"
         summary := "Found " ++ toString (p₂.total.getD p₂.results.length) ++
           " opportunities; showing " ++ toString p₂.results.length ++ "."
         results := p₂.results
         source := p₂.source.getD "grants.gov"
         sort_by := params₂.sort_by
         csv_filename := some ("grants_" ++ today₂ ++ ".csv")
         csv_content := some (csv_from_results p₂.results)
         saved_searches := some (l ++ [params₁] ++ [params₂])
         upsell := none }) := by
    simp [agent_grants, ensure_user, hlook, hpro, lookupKV_setKV_self]
  exact ⟨_, _, _, _, hrun₁, lookupKV_setKV_self s.saved u (l ++ [params₁]), rfl,
    hrun₂, lookupKV_setKV_self _ u (l ++ [params₁] ++ [params₂]), rfl, by simp⟩

/-- Witness for C9: two pro-tier saving requests with distinct params,
starting from the empty saved list of `proStore`, leave the list
`[params1, params2]` of length 2. -/
theorem saved_search_accumulation_witness :
    ∃ s₁ resp₁ s₂ resp₂,
      agent_grants "d1" "t1"
          { user_id := "u", params := { keyword := "housing" }, save_search := true }
          demoPayload proStore = .ok (s₁, resp₁) ∧
      agent_grants "d2" "t2"
          { user_id := "u", params := { keyword := "STEM" }, save_search := true }
          demoPayload s₁ = .ok (s₂, resp₂) ∧
      lookupKV s₂.saved "u"
        = some [{ keyword := "housing" }, { keyword := "STEM" }] ∧
      resp₂.saved_searches
        = some [{ keyword := "housing" }, { keyword := "STEM" }] ∧
      ([({ keyword := "housing" } : SearchParams), { keyword := "STEM" }]).length = 2 := by
  obtain ⟨s₁, resp₁, s₂, resp₂, h₁, h₂, h₃, h₄, h₅, h₆, h₇⟩ :=
    saved_search_accumulation "d1" "d2" "t1" "t2" "u"
      { keyword := "housing" } { keyword := "STEM" }
      demoPayload demoPayload proStore
      { subscription := "pro", created_at := "t0" } []
      (by decide) rfl (by decide)
  exact ⟨s₁, resp₁, s₂, resp₂, h₁, h₄, h₅, h₆, rfl⟩
theorem checkout_complete_run (sid now u : String) (hu : u ≠ "") (s : Store) :
    checkout_complete sid now { user_id := some u } s = .ok
      ({ users := setKV (ensure_user now u s).1.users u
           { subscription := "pro", created_at := (ensure_user now u s).2.created_at },
         saved := (ensure_user now u s).1.saved },
       { id := sid, status := "completed",
         receipt_url := "https://yourco.example/receipts/" ++ sid }) := by
  have htr : pyTruthyOptStr (some u) = true := by simp [pyTruthyOptStr, hu]
  simp [checkout_complete, htr, ensure_user_users_lookup]

theorem view_after_complete (sid now nowr u : String) (hu : u ≠ "") (s : Store) :
    ∃ s' ack, checkout_complete sid now { user_id := some u } s = .ok (s', ack) ∧
      (user_view nowr u s').2.subscription = "pro" := by
  refine ⟨_, _, checkout_complete_run sid now u hu s, ?_⟩
  have heu := ensure_user_of_lookup nowr u
    { users := setKV (ensure_user now u s).1.users u
        { subscription := "pro", created_at := (ensure_user now u s).2.created_at },
      saved := (ensure_user now u s).1.saved }
    { subscription := "pro", created_at := (ensure_user now u s).2.created_at }
    (lookupKV_setKV_self _ _ _)
  unfold user_view
  rw [heu]

/-- C8 (amended): for every non-empty user identity, completing checkout
sets the user's tier to `pro` (creating the user first if absent), so a
subsequent read yields `pro`; a second completion again yields `pro` (a
no-op in effect); and a never-referenced user is created as `free` on
first read.  (An empty user identity is falsy in Python and skips the
entitlement flip — see the counterexample.) -/
theorem checkout_complete_flips (sid now₁ now₂ nowr : String) (s : Store) (u : String)
    (hu : u ≠ "") :
    (∃ s₁ ack₁, checkout_complete sid now₁ { user_id := some u } s = .ok (s₁, ack₁) ∧
      (user_view nowr u s₁).2.subscription = "pro" ∧
      ∃ s₂ ack₂, checkout_complete sid now₂ { user_id := some u } s₁ = .ok (s₂, ack₂) ∧
        (user_view nowr u s₂).2.subscription = "pro") ∧
    (∀ v, lookupKV s.users v = none → (user_view nowr v s).2.subscription = "free") := by
  constructor
  · obtain ⟨s₁, a₁, h₁, hv₁⟩ := view_after_complete sid now₁ nowr u hu s
    obtain ⟨s₂, a₂, h₂, hv₂⟩ := view_after_complete sid now₂ nowr u hu s₁
    exact ⟨s₁, a₁, h₁, hv₁, s₂, a₂, h₂, hv₂⟩
  · intro v hv
    simp [user_view, ensure_user, hv]

/-- Witness for C8 (amended): completing for `"demo-user"` at the empty
store makes the next read return tier `pro`, twice over; and the fresh
user `"w"` reads as `free`. -/
theorem checkout_complete_flips_witness :
    (∃ s₁ ack₁, checkout_complete "cs_123" "t0" { user_id := some "demo-user" } emptyStore
        = .ok (s₁, ack₁) ∧
      (user_view "t9" "demo-user" s₁).2.subscription = "pro" ∧
      ∃ s₂ ack₂, checkout_complete "cs_123" "t1" { user_id := some "demo-user" } s₁
          = .ok (s₂, ack₂) ∧
        (user_view "t9" "demo-user" s₂).2.subscription = "pro") ∧
    (user_view "t9" "w" emptyStore).2.subscription = "free" := by
  obtain ⟨h₁, h₂⟩ := checkout_complete_flips "cs_123" "t0" "t1" "t9" emptyStore
    "demo-user" (by decide)
  exact ⟨h₁, h₂ "w" (by decide)⟩

/-- Counterexample to C8 as stated: the empty-string user identity is
supplied but falsy in Python, so completion does not flip the
entitlement — the store is unchanged and a subsequent read of user `""`
yields `free`, not `pro`. -/
theorem checkout_complete_flips_cex :
    checkout_complete "cs_123" "t0" { user_id := some "" } emptyStore
      = .ok (emptyStore,
        { id := "cs_123", status := "completed",
          receipt_url := "https://yourco.example/receipts/cs_123" }) ∧
    (user_view "t1" "" emptyStore).2.subscription = "free" ∧
    ("free" : String) ≠ "pro" := by
  refine ⟨by decide, by decide, by decide⟩

theorem storeInv_set_saved (s : Store) (hinv : StoreInv s) (u : String)
    (x : List SearchParams) (hmem : (lookupKV s.saved u).isSome) :
    StoreInv { users := s.users, saved := setKV s.saved u x } := by
  unfold StoreInv at hinv ⊢
  rw [map_fst_setKV_mem _ _ _ ((lookupKV_isSome_iff _ _).1 hmem)]
  exact hinv

theorem storeInv_set_users (s : Store) (hinv : StoreInv s) (u : String)
    (r : UserRec) (hmem : (lookupKV s.users u).isSome) :
    StoreInv { users := setKV s.users u r, saved := s.saved } := by
  unfold StoreInv at hinv ⊢
  rw [map_fst_setKV_mem _ _ _ ((lookupKV_isSome_iff _ _).1 hmem)]
  exact hinv

/-- C10: under the key-set invariant — `USERS` and `SAVED_SEARCHES` hold
the same user keys — every store operation preserves the invariant and
none of the dict subscripts performed after `ensure_user` can fail: the
endpoints never return a `KeyError`. -/
theorem store_key_invariant (today now sid : String) (s : Store) (hinv : StoreInv s) :
    (∀ u, StoreInv (ensure_user now u s).1) ∧
    (∀ u, StoreInv (user_view now u s).1) ∧
    (∀ u, ∃ s' lst, list_saved now u s = .ok (s', lst) ∧ StoreInv s') ∧
    (∀ req, ∃ s' ack, checkout_complete sid now req s = .ok (s', ack) ∧ StoreInv s') ∧
    (∀ req p, ∃ s' resp, agent_grants today now req p s = .ok (s', resp) ∧ StoreInv s') := by
  refine ⟨fun u => ensure_user_inv now u s hinv,
    fun u => ensure_user_inv now u s hinv, fun u => ?_, fun req => ?_, fun req p => ?_⟩
  · obtain ⟨l, hl⟩ := Option.isSome_iff_exists.1 (ensure_user_saved_isSome now u s hinv)
    have hrun : list_saved now u s = .ok ((ensure_user now u s).1, l) := by
      simp [list_saved, hl]
    exact ⟨_, _, hrun, ensure_user_inv now u s hinv⟩
  · obtain ⟨uo⟩ := req
    cases uo with
    | none =>
      exact ⟨s, ⟨sid, "completed", "https://yourco.example/receipts/" ++ sid⟩,
        by simp [checkout_complete, pyTruthyOptStr], hinv⟩
    | some u =>
      by_cases hu : u = ""
      · subst hu
        exact ⟨s, ⟨sid, "completed", "https://yourco.example/receipts/" ++ sid⟩,
          by simp [checkout_complete, pyTruthyOptStr], hinv⟩
      · refine ⟨_, _, checkout_complete_run sid now u hu s, ?_⟩
        exact storeInv_set_users (ensure_user now u s).1 (ensure_user_inv now u s hinv) u _
          (by rw [ensure_user_users_lookup]; rfl)
  · by_cases hpro : (ensure_user now req.user_id s).2.subscription = "pro"
    · cases hsv : req.save_search with
      | false =>
        exact ⟨_, _, agent_grants_run_pro_nosave today now req p s hpro hsv,
          ensure_user_inv now req.user_id s hinv⟩
      | true =>
        obtain ⟨l, hl⟩ := Option.isSome_iff_exists.1
          (ensure_user_saved_isSome now req.user_id s hinv)
        refine ⟨_, _, agent_grants_run_pro_save today now req p s l hpro hsv hl, ?_⟩
        exact storeInv_set_saved (ensure_user now req.user_id s).1
          (ensure_user_inv now req.user_id s hinv) req.user_id _ (by rw [hl]; rfl)
    · exact ⟨_, _, agent_grants_run_free today now req p s hpro,
        ensure_user_inv now req.user_id s hinv⟩

/-- Witness for C10: at the empty store (which satisfies the invariant)
each operation succeeds and preserves the invariant. -/
theorem store_key_invariant_witness :
    StoreInv (ensure_user "t" "u" emptyStore).1 ∧
    (∃ s' lst, list_saved "t" "u" emptyStore = .ok (s', lst) ∧ StoreInv s') ∧
    (∃ s' ack, checkout_complete "cs_123" "t" { user_id := some "u" } emptyStore
      = .ok (s', ack) ∧ StoreInv s') ∧
    (∃ s' resp, agent_grants "d" "t" { user_id := "u", params := {}, save_search := true }
      demoPayload emptyStore = .ok (s', resp) ∧ StoreInv s') := by
  obtain ⟨h₁, h₂, h₃, h₄, h₅⟩ := store_key_invariant "d" "t" "cs_123" emptyStore (by decide)
  exact ⟨h₁ "u", h₃ "u", h₄ { user_id := some "u" },
    h₅ { user_id := "u", params := {}, save_search := true } demoPayload⟩
